import Mathlib

/-!
# Logout command of the CLI (`pkg/cmd/cli/cmd/logout.go`)

A shallow embedding of `LogoutOptions.Complete`, `LogoutOptions.Validate`,
`LogoutOptions.RunLogout` and of the `Run` closure built by `NewCmdLogout`.

The collaborators that live in other packages (the client-config loader, the
REST client, `whoAmI`, `OAuthAccessTokens().Delete`, `ModifyConfig`) are
parameters of the model, gathered in `Env`.  They act on a world `W` that is
threaded through the calls.  Every collaborator call that can have an effect and
every write to `o.Out` is recorded, in order, in a call log.
-/

namespace Logout

/-- Go `error` values, identified by their message. -/
abbrev GoError := String

/-- One user stanza of the kubeconfig (`kclientcmdapi.AuthInfo`).  The code only reads
and writes `Token`; `Rest` stands for all the other fields of the stanza. -/
structure AuthInfo where
  Token : String
  Rest : String
deriving DecidableEq, Repr

/-- The kubeconfig (`kclientcmdapi.Config`).  `AuthInfos` is the Go map from
stanza name to stanza, kept as an association list; `Rest` stands for all the
other fields. -/
structure KubeConfig where
  AuthInfos : List (String × AuthInfo)
  Rest : String
deriving DecidableEq, Repr

/-- The client configuration (`kclient.Config`): the active session. -/
structure Config where
  Host : String
  BearerToken : String
  Rest : String
deriving DecidableEq, Repr

/-- The user object answered by the server. -/
structure User where
  Name : String
deriving DecidableEq, Repr

/-- Stands for `kcmdconfig.PathOptions`. -/
abbrev PathOptions := String

/-- Receiver of the three methods.  Pointers are options, `none` is `nil`.
The writer `Out` is represented by the `write` entries of the call log. -/
structure LogoutOptions where
  StartingKubeConfig : Option KubeConfig
  Config : Option Config
  PathOptions : Option PathOptions
deriving DecidableEq, Repr

/-- What a Go function returning `error` can do: return `nil`, return an error,
or panic on a nil dereference. -/
inductive GoResult where
  | nil
  | error (e : GoError)
  | panic
deriving DecidableEq, Repr

/-- The entries of the call log. -/
inductive Call where
  | whoAmI (cfg : Config)
  | delete (cfg : Config) (token : String)
  | modifyConfig (p : Option PathOptions) (c : KubeConfig)
  | write (s : String)
deriving DecidableEq, Repr

/-- The phases of a logout that show in the call log. -/
inductive Phase where
  | identify
  | revoke
  | persist
  | confirm
deriving DecidableEq, Repr

/-- Phase of a call. -/
def Call.phase : Call → Phase
  | .whoAmI _ => .identify
  | .delete _ _ => .revoke
  | .modifyConfig _ _ => .persist
  | .write _ => .confirm

/-- The lines written to `o.Out`, in order. -/
def written : List Call → List String
  | [] => []
  | .write s :: t => s :: written t
  | _ :: t => written t

/-- The collaborators of the command.
* `RawConfig`, `ClientConfig`: the two loaders of `f.OpenShiftClientConfig`;
  `RawConfig` returns a value and an error, as in Go.
* `NewPathOptions`: the value of `config.NewPathOptions(cmd)`.
* `New`: `client.New`, which builds a client from a configuration.
* `whoAmI`, `Delete`: the two requests sent to the server.
* `ModifyConfig`: `kcmdconfig.ModifyConfig`, which writes the kubeconfig. -/
structure Env (W : Type) where
  RawConfig : W → KubeConfig × Option GoError
  ClientConfig : W → Except GoError Config
  NewPathOptions : PathOptions
  New : Config → Option GoError
  whoAmI : W → Config → Except GoError User × W
  Delete : W → Config → String → Option GoError × W
  ModifyConfig : W → Option PathOptions → KubeConfig → Option GoError × W

/-- Outcome of a run: the value returned, the world afterwards, the contents of
`*o.StartingKubeConfig` afterwards and the call log. -/
structure Run (W : Type) where
  result : GoResult
  world : W
  store : Option KubeConfig
  calls : List Call

/-- Go map read `m[key]`. -/
def mapGet : List (String × AuthInfo) → String → Option AuthInfo
  | [], _ => none
  | (k, v) :: t, key => if k = key then some v else mapGet t key

/-- Go map write `m[key] = value`. -/
def mapSet : List (String × AuthInfo) → String → AuthInfo → List (String × AuthInfo)
  | [], key, value => [(key, value)]
  | (k, v) :: t, key, value =>
    if k = key then (k, value) :: t else (k, v) :: mapSet t key value

/-- The keys of a Go map. -/
def mapKeys (m : List (String × AuthInfo)) : List String := m.map Prod.fst

/-- Body of the `range` loop of `RunLogout` at one key. -/
def scrubStep (token : String) (m : List (String × AuthInfo)) (key : String) :
    List (String × AuthInfo) :=
  match mapGet m key with
  | none => m
  | some value =>
    if value.Token = token then mapSet m key { value with Token := "" } else m

/-- The `range` loop of `RunLogout`, visiting the keys in the given order. -/
def rangeScrub (token : String) (order : List String) (m : List (String × AuthInfo)) :
    List (String × AuthInfo) :=
  order.foldl (scrubStep token) m

/-- What the loop does to one stanza. -/
def clearToken (token : String) (value : AuthInfo) : AuthInfo :=
  if value.Token = token then { value with Token := "" } else value

/-- The value of `newConfig` after the loop of `RunLogout`. -/
def scrubConfig (token : String) (start : KubeConfig) : KubeConfig :=
  { start with AuthInfos := rangeScrub token (mapKeys start.AuthInfos) start.AuthInfos }

/-- The line printed at the end of `RunLogout`. -/
def confirmation (userInfo : User) (cfg : Config) : String :=
  "User, " ++ userInfo.Name ++ ", logged out of " ++ cfg.Host ++ "\n"

/-- `LogoutOptions.Complete`.  Returns the receiver as updated through the
pointer and the error. -/
def Complete {W : Type} (env : Env W) (w : W) (o : LogoutOptions) :
    LogoutOptions × Option GoError :=
  let kubeconfig := (env.RawConfig w).1
  let o1 : LogoutOptions := { o with StartingKubeConfig := some kubeconfig }
  match (env.RawConfig w).2 with
  | some err => (o1, some err)
  | none =>
    match env.ClientConfig w with
    | .error err => ({ o1 with Config := none }, some err)
    | .ok cfg =>
      ({ o1 with Config := some cfg, PathOptions := some env.NewPathOptions }, none)

/-- `LogoutOptions.Validate`. -/
def Validate (o : LogoutOptions) (args : List String) : GoResult :=
  if args.length > 0 then .error "No arguments are allowed"
  else
    match o.StartingKubeConfig with
    | none => .error "Must have a config file already created"
    | some _ =>
      match o.Config with
      | none => .panic
      | some cfg =>
        if cfg.BearerToken.length = 0 then .error "You must have a token in order to logout."
        else .nil

/-- `LogoutOptions.RunLogout`. -/
def RunLogout {W : Type} (env : Env W) (w : W) (o : LogoutOptions) : Run W :=
  match o.Config with
  | none => ⟨.panic, w, o.StartingKubeConfig, []⟩
  | some cfg =>
    let token := cfg.BearerToken
    match env.New cfg with
    | some err => ⟨.error err, w, o.StartingKubeConfig, []⟩
    | none =>
      match env.whoAmI w cfg with
      | (.error err, w1) => ⟨.error err, w1, o.StartingKubeConfig, [.whoAmI cfg]⟩
      | (.ok userInfo, w1) =>
        match env.Delete w1 cfg token with
        | (some err, w2) =>
          ⟨.error err, w2, o.StartingKubeConfig, [.whoAmI cfg, .delete cfg token]⟩
        | (none, w2) =>
          match o.StartingKubeConfig with
          | none => ⟨.panic, w2, none, [.whoAmI cfg, .delete cfg token]⟩
          | some start =>
            let newConfig : KubeConfig := scrubConfig token start
            match env.ModifyConfig w2 o.PathOptions newConfig with
            | (some err, w3) =>
              ⟨.error err, w3, some newConfig,
                [.whoAmI cfg, .delete cfg token, .modifyConfig o.PathOptions newConfig]⟩
            | (none, w3) =>
              ⟨.nil, w3, some newConfig,
                [.whoAmI cfg, .delete cfg token, .modifyConfig o.PathOptions newConfig,
                  .write (confirmation userInfo cfg)]⟩

/-- The `Run` closure of `NewCmdLogout`: `Complete`, `Validate`, `RunLogout`, each
followed by `kcmdutil.CheckErr`, which ends the process when the error is not
`nil`.  The message that `CheckErr` prints on the error stream is not part of the
call log, which records the writes to `o.Out`. -/
def logoutCmd {W : Type} (env : Env W) (w : W) (args : List String) : Run W :=
  let options : LogoutOptions := ⟨none, none, none⟩
  match Complete env w options with
  | (o1, some err) => ⟨.error err, w, o1.StartingKubeConfig, []⟩
  | (o1, none) =>
    match Validate o1 args with
    | .nil => RunLogout env w o1
    | res => ⟨res, w, o1.StartingKubeConfig, []⟩

/-! ## Sample worlds and collaborators -/

/-- A small world: the kubeconfig file and the tokens the server has deleted. -/
structure Sim where
  disk : KubeConfig
  revoked : List String
deriving DecidableEq, Repr

/-- Collaborators over `Sim`.  The server answers `whoAmI` with the user
`serverName` unless the token was deleted, `Delete` marks the token as deleted and
`ModifyConfig` replaces the file.  `tokenOf` says where the loader takes the
bearer token from; each of the other arguments makes one collaborator fail. -/
def simEnv (tokenOf : Sim → String) (serverName : String)
    (rawFails clientFails deleteFails modifyFails : Option GoError) : Env Sim where
  RawConfig := fun w => (w.disk, rawFails)
  ClientConfig := fun w =>
    match clientFails with
    | some e => .error e
    | none => .ok ⟨"https://master:8443", tokenOf w, ""⟩
  NewPathOptions := "~/.kube/config"
  New := fun _ => none
  whoAmI := fun w cfg =>
    if cfg.BearerToken ∈ w.revoked then (.error "Unauthorized", w)
    else (.ok ⟨serverName⟩, w)
  Delete := fun w _ token =>
    match deleteFails with
    | some e => (some e, w)
    | none => (none, { w with revoked := token :: w.revoked })
  ModifyConfig := fun w _ c =>
    match modifyFails with
    | some e => (some e, w)
    | none => (none, { w with disk := c })

/-- The loader reads the bearer token from the stanza named `user`. -/
def tokenOfStanza (user : String) (w : Sim) : String :=
  match mapGet w.disk.AuthInfos user with
  | some a => a.Token
  | none => ""

/-- The kubeconfig with the stanzas alice, alice-alias and bob. -/
def threeStanzas : KubeConfig :=
  ⟨[("alice", ⟨"tok-1", "a"⟩), ("alice-alias", ⟨"tok-1", "b"⟩), ("bob", ⟨"tok-2", "c"⟩)], "ctx"⟩

/-- The kubeconfig with the single stanza alice. -/
def oneStanza : KubeConfig := ⟨[("alice", ⟨"tok-1", "a"⟩)], "ctx"⟩

/-- A client configuration with the bearer token `tok-1`. -/
def tok1Config : Config := ⟨"https://master:8443", "tok-1", ""⟩

/-- A client configuration without bearer token. -/
def noTokenConfig : Config := ⟨"https://master:8443", "", ""⟩

/-! ## The Go map and the loop -/

theorem mapGet_mapSet (m : List (String × AuthInfo)) (k key : String) (v : AuthInfo) :
    mapGet (mapSet m k v) key = if k = key then some v else mapGet m key := by
  induction m with
  | nil => simp [mapSet, mapGet]
  | cons e t ih =>
    obtain ⟨k0, v0⟩ := e
    by_cases h0 : k0 = k
    · subst h0
      by_cases h1 : k0 = key <;> simp [mapSet, mapGet, h1]
    · by_cases h1 : k0 = key
      · subst h1
        have h2 : ¬ k = k0 := fun h => h0 h.symm
        simp [mapSet, mapGet, h0, h2]
      · simp [mapSet, mapGet, h0, h1, ih]

theorem mapKeys_mapSet (m : List (String × AuthInfo)) (k : String) (v0 v : AuthInfo)
    (h : mapGet m k = some v0) : mapKeys (mapSet m k v) = mapKeys m := by
  induction m with
  | nil => simp [mapGet] at h
  | cons e t ih =>
    obtain ⟨k1, v1⟩ := e
    by_cases h1 : k1 = k
    · simp [mapSet, mapKeys, h1]
    · have ht : mapGet t k = some v0 := by simpa [mapGet, h1] using h
      have := ih ht
      simp only [mapKeys] at this
      simp [mapSet, mapKeys, h1, this]

theorem mapGet_eq_none_iff (m : List (String × AuthInfo)) (key : String) :
    mapGet m key = none ↔ key ∉ mapKeys m := by
  induction m with
  | nil => simp [mapGet, mapKeys]
  | cons e t ih =>
    obtain ⟨k1, v1⟩ := e
    by_cases h1 : k1 = key
    · simp [mapGet, mapKeys, h1]
    · have h2 : ¬ key = k1 := fun h => h1 h.symm
      simp only [mapKeys] at ih
      simp [mapGet, mapKeys, h1, h2, ih]

theorem clearToken_clearToken (token : String) (v : AuthInfo) :
    clearToken token (clearToken token v) = clearToken token v := by
  unfold clearToken
  by_cases h : v.Token = token
  · by_cases h2 : "" = token <;> simp [h, h2]
  · simp [h]

theorem mapGet_scrubStep (token : String) (m : List (String × AuthInfo)) (k key : String) :
    mapGet (scrubStep token m k) key =
      if k = key then (mapGet m key).map (clearToken token) else mapGet m key := by
  unfold scrubStep
  by_cases hk : k = key
  · subst hk
    cases hg : mapGet m k with
    | none => simp [hg]
    | some v =>
      by_cases ht : v.Token = token
      · simp [ht, mapGet_mapSet, clearToken]
      · simp [ht, hg, clearToken]
  · cases hg : mapGet m k with
    | none => simp [hk]
    | some v =>
      by_cases ht : v.Token = token
      · simp [ht, hk, mapGet_mapSet]
      · simp [ht, hk]

theorem mapKeys_scrubStep (token : String) (m : List (String × AuthInfo)) (k : String) :
    mapKeys (scrubStep token m k) = mapKeys m := by
  unfold scrubStep
  cases hg : mapGet m k with
  | none => rfl
  | some v =>
    by_cases ht : v.Token = token
    · simp only [ht, if_true]
      exact mapKeys_mapSet m k v _ hg
    · simp [ht]

theorem mapGet_rangeScrub (token : String) (order : List String)
    (m : List (String × AuthInfo)) (key : String) :
    mapGet (rangeScrub token order m) key =
      if key ∈ order then (mapGet m key).map (clearToken token) else mapGet m key := by
  induction order generalizing m with
  | nil => simp [rangeScrub]
  | cons k t ih =>
    have hstep : rangeScrub token (k :: t) m = rangeScrub token t (scrubStep token m k) := rfl
    rw [hstep, ih, mapGet_scrubStep]
    by_cases hk : k = key
    · subst hk
      by_cases ht : k ∈ t
      · cases hg : mapGet m k <;> simp [ht, clearToken_clearToken]
      · simp [ht]
    · have hk2 : ¬ key = k := fun h => hk h.symm
      simp [hk, hk2]

theorem mapKeys_rangeScrub (token : String) (order : List String)
    (m : List (String × AuthInfo)) :
    mapKeys (rangeScrub token order m) = mapKeys m := by
  induction order generalizing m with
  | nil => rfl
  | cons k t ih =>
    have hstep : rangeScrub token (k :: t) m = rangeScrub token t (scrubStep token m k) := rfl
    rw [hstep, ih, mapKeys_scrubStep]

/-- The result of the loop does not depend on the order in which `range` yields
the keys, as long as every key of the map is visited. -/
theorem rangeScrub_any_order (token : String) (order : List String)
    (m : List (String × AuthInfo)) (hall : ∀ k ∈ mapKeys m, k ∈ order) (key : String) :
    mapGet (rangeScrub token order m) key =
      mapGet (rangeScrub token (mapKeys m) m) key := by
  rw [mapGet_rangeScrub, mapGet_rangeScrub]
  by_cases hk : key ∈ mapKeys m
  · simp [hk, hall key hk]
  · have hn : mapGet m key = none := (mapGet_eq_none_iff m key).2 hk
    simp [hn]

theorem mapGet_scrubConfig (token : String) (start : KubeConfig) (key : String) :
    mapGet (scrubConfig token start).AuthInfos key =
      (mapGet start.AuthInfos key).map (clearToken token) := by
  unfold scrubConfig
  simp only [mapGet_rangeScrub]
  by_cases hk : key ∈ mapKeys start.AuthInfos
  · simp [hk]
  · have hn : mapGet start.AuthInfos key = none := (mapGet_eq_none_iff _ key).2 hk
    simp [hn]

/-! ## `RunLogout` -/

/-- A run of `RunLogout` that returns `nil` went through every step. -/
theorem RunLogout_nil_inv {W : Type} (env : Env W) (w : W) (o : LogoutOptions)
    (hok : (RunLogout env w o).result = .nil) :
    ∃ cfg start userInfo w1 w2 w3,
      o.Config = some cfg ∧ o.StartingKubeConfig = some start ∧ env.New cfg = none ∧
      env.whoAmI w cfg = (.ok userInfo, w1) ∧
      env.Delete w1 cfg cfg.BearerToken = (none, w2) ∧
      env.ModifyConfig w2 o.PathOptions (scrubConfig cfg.BearerToken start) = (none, w3) ∧
      RunLogout env w o =
        ⟨.nil, w3, some (scrubConfig cfg.BearerToken start),
          [.whoAmI cfg, .delete cfg cfg.BearerToken,
            .modifyConfig o.PathOptions (scrubConfig cfg.BearerToken start),
            .write (confirmation userInfo cfg)]⟩ := by
  unfold RunLogout at hok ⊢
  cases hc : o.Config with
  | none => simp [hc] at hok
  | some cfg =>
    simp only [hc] at hok ⊢
    cases hn : env.New cfg with
    | some e => simp [hn] at hok
    | none =>
      simp only [hn] at hok ⊢
      rcases hw : env.whoAmI w cfg with ⟨r, w1⟩
      cases r with
      | error e => simp [hw] at hok
      | ok userInfo =>
        simp only [hw] at hok ⊢
        rcases hd : env.Delete w1 cfg cfg.BearerToken with ⟨d, w2⟩
        cases d with
        | some e => simp [hd] at hok
        | none =>
          simp only [hd] at hok ⊢
          cases hs : o.StartingKubeConfig with
          | none => simp [hs] at hok
          | some start =>
            simp only [hs] at hok ⊢
            rcases hm : env.ModifyConfig w2 o.PathOptions
              (scrubConfig cfg.BearerToken start) with ⟨r3, w3⟩
            cases r3 with
            | some e => simp [hm] at hok
            | none =>
              exact ⟨cfg, start, userInfo, w1, w2, w3, rfl, rfl, hn, hw, hd, hm,
                by simp [hm]⟩

/-- In a map with pairwise distinct keys every entry is the one found by its key. -/
theorem mapGet_of_mem (m : List (String × AuthInfo)) (hnd : (mapKeys m).Nodup)
    (e : String × AuthInfo) (he : e ∈ m) : mapGet m e.1 = some e.2 := by
  induction m with
  | nil => simp at he
  | cons e0 t ih =>
    obtain ⟨k0, v0⟩ := e0
    have hnd2 : k0 ∉ mapKeys t ∧ (mapKeys t).Nodup := by
      simpa [mapKeys] using hnd
    rcases List.mem_cons.1 he with h | h
    · subst h
      simp [mapGet]
    · have hk : e.1 ∈ mapKeys t := List.mem_map_of_mem Prod.fst h
      have hne : ¬ k0 = e.1 := fun hh => hnd2.1 (hh ▸ hk)
      simp [mapGet, hne, ih hnd2.2 h]

/-- Two maps with the same pairwise distinct keys, in the same order, and the
same value at every key are equal. -/
theorem eq_of_mapKeys_of_mapGet (a b : List (String × AuthInfo))
    (hk : mapKeys a = mapKeys b) (hnd : (mapKeys a).Nodup)
    (hg : ∀ key, mapGet a key = mapGet b key) : a = b := by
  induction a generalizing b with
  | nil =>
    cases b with
    | nil => rfl
    | cons e t => simp [mapKeys] at hk
  | cons e t ih =>
    cases b with
    | nil => simp [mapKeys] at hk
    | cons e2 t2 =>
      obtain ⟨k, v⟩ := e
      obtain ⟨k2, v2⟩ := e2
      have hk2 : k = k2 ∧ mapKeys t = mapKeys t2 := by simpa [mapKeys] using hk
      obtain ⟨rfl, hkt⟩ := hk2
      have hnd2 : k ∉ mapKeys t ∧ (mapKeys t).Nodup := by simpa [mapKeys] using hnd
      have hv : v = v2 := by simpa [mapGet] using hg k
      subst hv
      have htail : t = t2 := by
        apply ih t2 hkt hnd2.2
        intro key
        by_cases hkey : k = key
        · subst hkey
          rw [(mapGet_eq_none_iff t k).2 hnd2.1, (mapGet_eq_none_iff t2 k).2 (hkt ▸ hnd2.1)]
        · simpa [mapGet, hkey] using hg key
      rw [htail]

theorem mapGet_map_clearToken (token : String) (m : List (String × AuthInfo)) (key : String) :
    mapGet (m.map (fun e => (e.1, clearToken token e.2))) key =
      (mapGet m key).map (clearToken token) := by
  induction m with
  | nil => rfl
  | cons e t ih =>
    obtain ⟨k, v⟩ := e
    by_cases hkey : k = key <;> simp [mapGet, hkey, ih]

/-- On a map with pairwise distinct keys the loop of `RunLogout` leaves every
stanza in its place and clears the token of the matching ones. -/
theorem scrubConfig_AuthInfos (token : String) (start : KubeConfig)
    (hnd : (mapKeys start.AuthInfos).Nodup) :
    (scrubConfig token start).AuthInfos =
      start.AuthInfos.map (fun e => (e.1, clearToken token e.2)) := by
  have hkeys : mapKeys (scrubConfig token start).AuthInfos = mapKeys start.AuthInfos :=
    mapKeys_rangeScrub _ _ _
  apply eq_of_mapKeys_of_mapGet
  · rw [hkeys]
    simp [mapKeys, Function.comp_def]
  · rw [hkeys]
    exact hnd
  · intro key
    rw [mapGet_scrubConfig, mapGet_map_clearToken]

/-- The run of `RunLogout` when the server refuses to delete the token. -/
theorem RunLogout_delete_error {W : Type} (env : Env W) (w : W) (o : LogoutOptions)
    (cfg : Config) (userInfo : User) (w1 w2 : W) (err : GoError)
    (hc : o.Config = some cfg) (hn : env.New cfg = none)
    (hw : env.whoAmI w cfg = (.ok userInfo, w1))
    (hd : env.Delete w1 cfg cfg.BearerToken = (some err, w2)) :
    RunLogout env w o =
      ⟨.error err, w2, o.StartingKubeConfig, [.whoAmI cfg, .delete cfg cfg.BearerToken]⟩ := by
  unfold RunLogout
  simp [hc, hn, hw, hd]

/-- The run of `RunLogout` when the kubeconfig cannot be written. -/
theorem RunLogout_modify_error {W : Type} (env : Env W) (w : W) (o : LogoutOptions)
    (cfg : Config) (start : KubeConfig) (userInfo : User) (w1 w2 w3 : W) (err : GoError)
    (hc : o.Config = some cfg) (hs : o.StartingKubeConfig = some start)
    (hn : env.New cfg = none)
    (hw : env.whoAmI w cfg = (.ok userInfo, w1))
    (hd : env.Delete w1 cfg cfg.BearerToken = (none, w2))
    (hm : env.ModifyConfig w2 o.PathOptions (scrubConfig cfg.BearerToken start) =
      (some err, w3)) :
    RunLogout env w o =
      ⟨.error err, w3, some (scrubConfig cfg.BearerToken start),
        [.whoAmI cfg, .delete cfg cfg.BearerToken,
          .modifyConfig o.PathOptions (scrubConfig cfg.BearerToken start)]⟩ := by
  unfold RunLogout
  simp [hc, hs, hn, hw, hd, hm]

/-- Every run of `RunLogout` has one of seven shapes, one for each place where
the function can stop. -/
theorem RunLogout_cases {W : Type} (env : Env W) (w : W) (o : LogoutOptions) :
    (o.Config = none ∧ RunLogout env w o = ⟨.panic, w, o.StartingKubeConfig, []⟩) ∨
    (∃ cfg e, o.Config = some cfg ∧ env.New cfg = some e ∧
      RunLogout env w o = ⟨.error e, w, o.StartingKubeConfig, []⟩) ∨
    (∃ cfg e w1, o.Config = some cfg ∧ env.New cfg = none ∧
      env.whoAmI w cfg = (.error e, w1) ∧
      RunLogout env w o = ⟨.error e, w1, o.StartingKubeConfig, [.whoAmI cfg]⟩) ∨
    (∃ cfg userInfo w1 e w2, o.Config = some cfg ∧ env.New cfg = none ∧
      env.whoAmI w cfg = (.ok userInfo, w1) ∧
      env.Delete w1 cfg cfg.BearerToken = (some e, w2) ∧
      RunLogout env w o =
        ⟨.error e, w2, o.StartingKubeConfig, [.whoAmI cfg, .delete cfg cfg.BearerToken]⟩) ∨
    (∃ cfg userInfo w1 w2, o.Config = some cfg ∧ env.New cfg = none ∧
      env.whoAmI w cfg = (.ok userInfo, w1) ∧
      env.Delete w1 cfg cfg.BearerToken = (none, w2) ∧ o.StartingKubeConfig = none ∧
      RunLogout env w o = ⟨.panic, w2, none, [.whoAmI cfg, .delete cfg cfg.BearerToken]⟩) ∨
    (∃ cfg userInfo w1 w2 start e w3, o.Config = some cfg ∧ env.New cfg = none ∧
      env.whoAmI w cfg = (.ok userInfo, w1) ∧
      env.Delete w1 cfg cfg.BearerToken = (none, w2) ∧ o.StartingKubeConfig = some start ∧
      env.ModifyConfig w2 o.PathOptions (scrubConfig cfg.BearerToken start) = (some e, w3) ∧
      RunLogout env w o =
        ⟨.error e, w3, some (scrubConfig cfg.BearerToken start),
          [.whoAmI cfg, .delete cfg cfg.BearerToken,
            .modifyConfig o.PathOptions (scrubConfig cfg.BearerToken start)]⟩) ∨
    (∃ cfg userInfo w1 w2 start w3, o.Config = some cfg ∧ env.New cfg = none ∧
      env.whoAmI w cfg = (.ok userInfo, w1) ∧
      env.Delete w1 cfg cfg.BearerToken = (none, w2) ∧ o.StartingKubeConfig = some start ∧
      env.ModifyConfig w2 o.PathOptions (scrubConfig cfg.BearerToken start) = (none, w3) ∧
      RunLogout env w o =
        ⟨.nil, w3, some (scrubConfig cfg.BearerToken start),
          [.whoAmI cfg, .delete cfg cfg.BearerToken,
            .modifyConfig o.PathOptions (scrubConfig cfg.BearerToken start),
            .write (confirmation userInfo cfg)]⟩) := by
  cases hc : o.Config with
  | none => left; exact ⟨rfl, by unfold RunLogout; simp [hc]⟩
  | some cfg =>
    right
    cases hn : env.New cfg with
    | some e => left; exact ⟨cfg, e, rfl, hn, by unfold RunLogout; simp [hc, hn]⟩
    | none =>
      right
      rcases hw : env.whoAmI w cfg with ⟨r, w1⟩
      cases r with
      | error e =>
        left; exact ⟨cfg, e, w1, rfl, hn, hw, by unfold RunLogout; simp [hc, hn, hw]⟩
      | ok userInfo =>
        right
        rcases hd : env.Delete w1 cfg cfg.BearerToken with ⟨d, w2⟩
        cases d with
        | some e =>
          left
          exact ⟨cfg, userInfo, w1, e, w2, rfl, hn, hw, hd,
            RunLogout_delete_error env w o cfg userInfo w1 w2 e hc hn hw hd⟩
        | none =>
          right
          cases hs : o.StartingKubeConfig with
          | none =>
            left
            exact ⟨cfg, userInfo, w1, w2, rfl, hn, hw, hd, rfl,
              by unfold RunLogout; simp [hc, hn, hw, hd, hs]⟩
          | some start =>
            right
            rcases hm : env.ModifyConfig w2 o.PathOptions
              (scrubConfig cfg.BearerToken start) with ⟨r3, w3⟩
            cases r3 with
            | some e =>
              left
              exact ⟨cfg, userInfo, w1, w2, start, e, w3, rfl, hn, hw, hd, rfl, hm,
                by unfold RunLogout; simp [hc, hn, hw, hd, hs, hm]⟩
            | none =>
              right
              exact ⟨cfg, userInfo, w1, w2, start, w3, rfl, hn, hw, hd, rfl, hm,
                by unfold RunLogout; simp [hc, hn, hw, hd, hs, hm]⟩

/-! ## `Complete`, `Validate` and the command -/

theorem length_eq_zero_iff (s : String) : s.length = 0 ↔ s = "" := by
  constructor
  · intro h
    have hd : s.data = [] := List.length_eq_zero.1 h
    exact String.ext hd
  · intro h
    subst h
    rfl

theorem Complete_store {W : Type} (env : Env W) (w : W) (o : LogoutOptions) :
    (Complete env w o).1.StartingKubeConfig = some (env.RawConfig w).1 := by
  unfold Complete
  cases hr : (env.RawConfig w).2 with
  | some e => simp
  | none =>
    cases hcc : env.ClientConfig w with
    | error e => simp
    | ok cfg => simp

theorem Complete_ok {W : Type} (env : Env W) (w : W) (o : LogoutOptions) (cfg : Config)
    (hr : (env.RawConfig w).2 = none) (hcc : env.ClientConfig w = .ok cfg) :
    Complete env w o =
      (⟨some (env.RawConfig w).1, some cfg, some env.NewPathOptions⟩, none) := by
  unfold Complete
  simp [hr, hcc]

theorem Complete_nil_inv {W : Type} (env : Env W) (w : W) (o : LogoutOptions)
    (h : (Complete env w o).2 = none) :
    ∃ cfg, (env.RawConfig w).2 = none ∧ env.ClientConfig w = .ok cfg := by
  unfold Complete at h
  cases hr : (env.RawConfig w).2 with
  | some e => simp [hr] at h
  | none =>
    cases hcc : env.ClientConfig w with
    | error e => simp [hr, hcc] at h
    | ok cfg => exact ⟨cfg, rfl, rfl⟩

theorem Validate_args (o : LogoutOptions) (args : List String) (h : args ≠ []) :
    Validate o args = .error "No arguments are allowed" := by
  unfold Validate
  have : args.length > 0 := List.length_pos.2 h
  simp [this]

theorem Validate_no_args (cfg : Config) (k : KubeConfig) (p : Option PathOptions) :
    Validate ⟨some k, some cfg, p⟩ [] =
      if cfg.BearerToken = "" then .error "You must have a token in order to logout."
      else .nil := by
  unfold Validate
  simp [length_eq_zero_iff]

/-- The command when `Complete` fails. -/
theorem logoutCmd_complete_error {W : Type} (env : Env W) (w : W) (args : List String)
    (e : GoError) (h : (Complete env w ⟨none, none, none⟩).2 = some e) :
    logoutCmd env w args = ⟨.error e, w, some (env.RawConfig w).1, []⟩ := by
  have hst := Complete_store env w ⟨none, none, none⟩
  simp only [logoutCmd]
  rcases hC : Complete env w ⟨none, none, none⟩ with ⟨o1, r⟩
  rw [hC] at h hst
  simp only at h hst
  subst h
  simp [hst]

/-- The command when `Complete` succeeds and `Validate` does not return `nil`. -/
theorem logoutCmd_validate_stops {W : Type} (env : Env W) (w : W) (args : List String)
    (cfg : Config) (hr : (env.RawConfig w).2 = none) (hcc : env.ClientConfig w = .ok cfg)
    (hv : Validate ⟨some (env.RawConfig w).1, some cfg, some env.NewPathOptions⟩ args ≠ .nil) :
    logoutCmd env w args =
      ⟨Validate ⟨some (env.RawConfig w).1, some cfg, some env.NewPathOptions⟩ args, w,
        some (env.RawConfig w).1, []⟩ := by
  simp only [logoutCmd, Complete_ok env w _ cfg hr hcc]

/-- The command when `Complete` succeeds and `Validate` returns `nil`. -/
theorem logoutCmd_runs {W : Type} (env : Env W) (w : W) (args : List String)
    (cfg : Config) (hr : (env.RawConfig w).2 = none) (hcc : env.ClientConfig w = .ok cfg)
    (hv : Validate ⟨some (env.RawConfig w).1, some cfg, some env.NewPathOptions⟩ args = .nil) :
    logoutCmd env w args =
      RunLogout env w ⟨some (env.RawConfig w).1, some cfg, some env.NewPathOptions⟩ := by
  simp only [logoutCmd, Complete_ok env w _ cfg hr hcc]
  rw [hv]

/-! ## The claims about `RunLogout` -/

/-- C1: after a successful `RunLogout` on a store `start` with active credential
`cfg.BearerToken`, the store in memory is the one handed to `ModifyConfig`; in it
every stanza whose `Token` equalled the active credential has `Token = ""` and
its other fields as before, every other stanza is unchanged, and no stanza is
added or removed.  All matching stanzas are cleared, not only the first: when the
names are pairwise distinct, as in a Go map, the new stanzas are the old ones,
one by one, with the token of each matching one cleared. -/
theorem RunLogout_clears_every_matching_stanza {W : Type} (env : Env W) (w : W)
    (o : LogoutOptions) (cfg : Config) (start : KubeConfig)
    (hc : o.Config = some cfg) (hs : o.StartingKubeConfig = some start)
    (hok : (RunLogout env w o).result = .nil) :
    ∃ after : KubeConfig,
      (RunLogout env w o).store = some after ∧
      Call.modifyConfig o.PathOptions after ∈ (RunLogout env w o).calls ∧
      after.Rest = start.Rest ∧
      mapKeys after.AuthInfos = mapKeys start.AuthInfos ∧
      (∀ key v, mapGet start.AuthInfos key = some v → v.Token = cfg.BearerToken →
        mapGet after.AuthInfos key = some { v with Token := "" }) ∧
      (∀ key v, mapGet start.AuthInfos key = some v → v.Token ≠ cfg.BearerToken →
        mapGet after.AuthInfos key = some v) ∧
      (∀ key, mapGet start.AuthInfos key = none → mapGet after.AuthInfos key = none) ∧
      ((mapKeys start.AuthInfos).Nodup →
        after.AuthInfos = start.AuthInfos.map (fun e =>
          (e.1, if e.2.Token = cfg.BearerToken then { e.2 with Token := "" } else e.2))) := by
  obtain ⟨cfg2, start2, userInfo, w1, w2, w3, hc2, hs2, -, -, -, -, hrun⟩ :=
    RunLogout_nil_inv env w o hok
  have e1 : cfg2 = cfg := by rw [hc] at hc2; exact (Option.some.inj hc2).symm
  have e2 : start2 = start := by rw [hs] at hs2; exact (Option.some.inj hs2).symm
  subst e1 e2
  refine ⟨scrubConfig cfg2.BearerToken start2, ?_, ?_, rfl, ?_, ?_, ?_, ?_,
    fun hnd => scrubConfig_AuthInfos _ _ hnd⟩
  · rw [hrun]
  · rw [hrun]; simp
  · exact mapKeys_rangeScrub _ _ _
  · intro key v hg ht
    rw [mapGet_scrubConfig, hg]
    simp [clearToken, ht]
  · intro key v hg ht
    rw [mapGet_scrubConfig, hg]
    simp [clearToken, ht]
  · intro key hg
    rw [mapGet_scrubConfig, hg]
    rfl

/-- Witness of C1 on the store alice, alice-alias, bob with active credential tok-1. -/
theorem RunLogout_clears_every_matching_stanza_witness :
    (RunLogout (simEnv (fun _ => "tok-1") "alice@server" none none none none)
        ⟨threeStanzas, []⟩ ⟨some threeStanzas, some tok1Config, some "cfg"⟩).result = .nil ∧
    ∃ after : KubeConfig,
      (RunLogout (simEnv (fun _ => "tok-1") "alice@server" none none none none)
        ⟨threeStanzas, []⟩ ⟨some threeStanzas, some tok1Config, some "cfg"⟩).store
          = some after ∧
      mapGet after.AuthInfos "alice" = some ⟨"", "a"⟩ ∧
      mapGet after.AuthInfos "alice-alias" = some ⟨"", "b"⟩ ∧
      mapGet after.AuthInfos "bob" = some ⟨"tok-2", "c"⟩ ∧
      mapGet after.AuthInfos "carol" = none := by
  refine ⟨by decide, ?_⟩
  obtain ⟨after, h1, -, -, -, h5, h6, h7, -⟩ :=
    RunLogout_clears_every_matching_stanza
      (simEnv (fun _ => "tok-1") "alice@server" none none none none)
      ⟨threeStanzas, []⟩ ⟨some threeStanzas, some tok1Config, some "cfg"⟩
      tok1Config threeStanzas rfl rfl (by decide)
  exact ⟨after, h1, h5 "alice" ⟨"tok-1", "a"⟩ (by decide) (by decide),
    h5 "alice-alias" ⟨"tok-1", "b"⟩ (by decide) (by decide),
    h6 "bob" ⟨"tok-2", "c"⟩ (by decide) (by decide), h7 "carol" (by decide)⟩

/-- C2: when `OAuthAccessTokens().Delete` fails, `RunLogout` returns that error,
the store in memory is as before, the call log ends with the failed delete, so
`ModifyConfig` is not called and nothing is written to the output, and the world
is the one the failed delete left. -/
theorem RunLogout_revoke_failure_keeps_store {W : Type} (env : Env W) (w : W)
    (o : LogoutOptions) (cfg : Config) (userInfo : User) (w1 w2 : W) (err : GoError)
    (hc : o.Config = some cfg) (hn : env.New cfg = none)
    (hw : env.whoAmI w cfg = (.ok userInfo, w1))
    (hd : env.Delete w1 cfg cfg.BearerToken = (some err, w2)) :
    (RunLogout env w o).result = .error err ∧
    (RunLogout env w o).store = o.StartingKubeConfig ∧
    (RunLogout env w o).world = w2 ∧
    (RunLogout env w o).calls = [.whoAmI cfg, .delete cfg cfg.BearerToken] ∧
    (∀ p c, Call.modifyConfig p c ∉ (RunLogout env w o).calls) ∧
    written (RunLogout env w o).calls = [] := by
  rw [RunLogout_delete_error env w o cfg userInfo w1 w2 err hc hn hw hd]
  simp [written]

/-- Witness of C2: the store with the single stanza alice, the delete of tok-1 fails. -/
theorem RunLogout_revoke_failure_keeps_store_witness :
    (RunLogout (simEnv (fun _ => "tok-1") "alice@server" none none (some "server error") none)
        ⟨oneStanza, []⟩ ⟨some oneStanza, some tok1Config, some "cfg"⟩).result
      = .error "server error" ∧
    (RunLogout (simEnv (fun _ => "tok-1") "alice@server" none none (some "server error") none)
        ⟨oneStanza, []⟩ ⟨some oneStanza, some tok1Config, some "cfg"⟩).store
      = some ⟨[("alice", ⟨"tok-1", "a"⟩)], "ctx"⟩ ∧
    (RunLogout (simEnv (fun _ => "tok-1") "alice@server" none none (some "server error") none)
        ⟨oneStanza, []⟩ ⟨some oneStanza, some tok1Config, some "cfg"⟩).world
      = ⟨oneStanza, []⟩ :=
  have h := RunLogout_revoke_failure_keeps_store
    (simEnv (fun _ => "tok-1") "alice@server" none none (some "server error") none)
    ⟨oneStanza, []⟩ ⟨some oneStanza, some tok1Config, some "cfg"⟩ tok1Config
    ⟨"alice@server"⟩ ⟨oneStanza, []⟩ ⟨oneStanza, []⟩ "server error" rfl rfl rfl rfl
  ⟨h.1, h.2.1, h.2.2.1⟩

/-- C3: after a successful `RunLogout` with a non-empty active credential no
stanza of the store holds that credential, the stanza names are the same as
before, and every stanza that existed still exists with its other fields intact
and its `Token` either kept or cleared. -/
theorem RunLogout_no_stanza_keeps_revoked_token {W : Type} (env : Env W) (w : W)
    (o : LogoutOptions) (cfg : Config) (start : KubeConfig)
    (hc : o.Config = some cfg) (hs : o.StartingKubeConfig = some start)
    (hne : cfg.BearerToken ≠ "")
    (hok : (RunLogout env w o).result = .nil) :
    ∃ after : KubeConfig,
      (RunLogout env w o).store = some after ∧
      (∀ key v, mapGet after.AuthInfos key = some v → v.Token ≠ cfg.BearerToken) ∧
      ((mapKeys start.AuthInfos).Nodup →
        ∀ e ∈ after.AuthInfos, e.2.Token ≠ cfg.BearerToken) ∧
      mapKeys after.AuthInfos = mapKeys start.AuthInfos ∧
      (∀ key v, mapGet start.AuthInfos key = some v →
        ∃ v2, mapGet after.AuthInfos key = some v2 ∧ v2.Rest = v.Rest ∧
          (v2.Token = v.Token ∨ v2.Token = "")) := by
  obtain ⟨cfg2, start2, userInfo, w1, w2, w3, hc2, hs2, -, -, -, -, hrun⟩ :=
    RunLogout_nil_inv env w o hok
  have e1 : cfg2 = cfg := by rw [hc] at hc2; exact (Option.some.inj hc2).symm
  have e2 : start2 = start := by rw [hs] at hs2; exact (Option.some.inj hs2).symm
  subst e1 e2
  have hget : ∀ key v, mapGet (scrubConfig cfg2.BearerToken start2).AuthInfos key = some v →
      v.Token ≠ cfg2.BearerToken := by
    intro key v hg
    rw [mapGet_scrubConfig] at hg
    cases hg0 : mapGet start2.AuthInfos key with
    | none => simp [hg0] at hg
    | some v0 =>
      rw [hg0] at hg
      have hv : clearToken cfg2.BearerToken v0 = v := by simpa using hg
      rw [← hv]
      unfold clearToken
      by_cases ht : v0.Token = cfg2.BearerToken
      · simp only [ht, if_true]
        exact fun h => hne h.symm
      · simp [ht]
  have hkeys : mapKeys (scrubConfig cfg2.BearerToken start2).AuthInfos =
      mapKeys start2.AuthInfos := mapKeys_rangeScrub _ _ _
  refine ⟨scrubConfig cfg2.BearerToken start2, ?_, hget, ?_, hkeys, ?_⟩
  · rw [hrun]
  · intro hnd e he
    exact hget e.1 e.2 (mapGet_of_mem _ (hkeys ▸ hnd) e he)
  · intro key v hg
    refine ⟨clearToken cfg2.BearerToken v, ?_, ?_, ?_⟩
    · rw [mapGet_scrubConfig, hg]; rfl
    · unfold clearToken; by_cases ht : v.Token = cfg2.BearerToken <;> simp [ht]
    · unfold clearToken; by_cases ht : v.Token = cfg2.BearerToken <;> simp [ht]

/-- Witness of C3 on the store alice, alice-alias, bob with active credential tok-1. -/
theorem RunLogout_no_stanza_keeps_revoked_token_witness :
    (RunLogout (simEnv (fun _ => "tok-1") "alice@server" none none none none)
        ⟨threeStanzas, []⟩ ⟨some threeStanzas, some tok1Config, none⟩).result = .nil ∧
    tok1Config.BearerToken ≠ "" ∧
    ∃ after : KubeConfig,
      (RunLogout (simEnv (fun _ => "tok-1") "alice@server" none none none none)
        ⟨threeStanzas, []⟩ ⟨some threeStanzas, some tok1Config, none⟩).store = some after ∧
      (∀ e ∈ after.AuthInfos, e.2.Token ≠ "tok-1") ∧
      mapKeys after.AuthInfos = ["alice", "alice-alias", "bob"] := by
  refine ⟨by decide, by decide, ?_⟩
  obtain ⟨after, h1, -, h3, h4, -⟩ :=
    RunLogout_no_stanza_keeps_revoked_token
      (simEnv (fun _ => "tok-1") "alice@server" none none none none)
      ⟨threeStanzas, []⟩ ⟨some threeStanzas, some tok1Config, none⟩
      tok1Config threeStanzas rfl rfl (by decide) (by decide)
  exact ⟨after, h1, h3 (by decide), h4⟩

/-- C7: a successful `RunLogout` writes exactly one line to the output, built
from the name the server answered to `whoAmI` in this run and from the host of
the client configuration; a run that does not return `nil` writes nothing. -/
theorem RunLogout_output {W : Type} (env : Env W) (w : W) (o : LogoutOptions) :
    ((RunLogout env w o).result = .nil →
      ∃ cfg userInfo w1, o.Config = some cfg ∧ env.whoAmI w cfg = (.ok userInfo, w1) ∧
        written (RunLogout env w o).calls =
          ["User, " ++ userInfo.Name ++ ", logged out of " ++ cfg.Host ++ "\n"]) ∧
    ((RunLogout env w o).result ≠ .nil → written (RunLogout env w o).calls = []) := by
  rcases RunLogout_cases env w o with
    ⟨-, h⟩ | ⟨cfg, e, -, -, h⟩ | ⟨cfg, e, w1, -, -, -, h⟩ |
    ⟨cfg, u, w1, e, w2, -, -, -, -, h⟩ | ⟨cfg, u, w1, w2, -, -, -, -, -, h⟩ |
    ⟨cfg, u, w1, w2, start, e, w3, -, -, -, -, -, -, h⟩ |
    ⟨cfg, u, w1, w2, start, w3, hc, -, hw, -, -, -, h⟩
  all_goals rw [h]
  all_goals try simp [written]
  exact ⟨cfg, hc, u, ⟨w1, hw⟩, rfl⟩

/-- Witness of C7: the stanza is named alice, the server answers alice@server. -/
theorem RunLogout_output_witness :
    written (RunLogout (simEnv (fun _ => "tok-1") "alice@server" none none none none)
        ⟨oneStanza, []⟩ ⟨some oneStanza, some tok1Config, some "cfg"⟩).calls
      = ["User, alice@server, logged out of https://master:8443\n"] ∧
    written (RunLogout (simEnv (fun _ => "tok-1") "alice@server" none none none (some "disk full"))
        ⟨oneStanza, []⟩ ⟨some oneStanza, some tok1Config, some "cfg"⟩).calls = [] := by
  constructor
  · obtain ⟨cfg, userInfo, w1, hc, hw, hout⟩ :=
      (RunLogout_output (simEnv (fun _ => "tok-1") "alice@server" none none none none)
        ⟨oneStanza, []⟩ ⟨some oneStanza, some tok1Config, some "cfg"⟩).1 (by decide)
    have e1 : cfg = tok1Config := (Option.some.inj hc).symm
    subst e1
    have e2 : userInfo = ⟨"alice@server"⟩ := by
      have h0 : (simEnv (fun _ => "tok-1") "alice@server" none none none none).whoAmI
          ⟨oneStanza, []⟩ tok1Config = (.ok ⟨"alice@server"⟩, ⟨oneStanza, []⟩) := rfl
      rw [h0] at hw
      injection hw with h1 _
      injection h1 with h2
      exact h2.symm
    subst e2
    exact hout
  · exact (RunLogout_output
      (simEnv (fun _ => "tok-1") "alice@server" none none none (some "disk full"))
      ⟨oneStanza, []⟩ ⟨some oneStanza, some tok1Config, some "cfg"⟩).2 (by decide)

/-- C9: the calls of a run of `RunLogout` are an initial part of identify,
revoke, persist, confirm, in this order and each at most once.  A delete is only
sent after `whoAmI` succeeded; the store is only changed, and `ModifyConfig` only
called, after the delete succeeded; `ModifyConfig` receives the scrubbed store;
the line is only written on success, after `ModifyConfig`; and when `whoAmI`
fails the run ends there: no delete, the store as before, nothing persisted or
printed. -/
theorem RunLogout_phase_order {W : Type} (env : Env W) (w : W) (o : LogoutOptions) :
    ((RunLogout env w o).calls.map Call.phase <+:
      [Phase.identify, Phase.revoke, Phase.persist, Phase.confirm]) ∧
    (∀ c t, Call.delete c t ∈ (RunLogout env w o).calls →
      ∃ userInfo w1, o.Config = some c ∧ t = c.BearerToken ∧
        env.whoAmI w c = (.ok userInfo, w1)) ∧
    (((RunLogout env w o).store ≠ o.StartingKubeConfig ∨
        ∃ p c, Call.modifyConfig p c ∈ (RunLogout env w o).calls) →
      ∃ cfg userInfo w1 w2, o.Config = some cfg ∧ env.whoAmI w cfg = (.ok userInfo, w1) ∧
        env.Delete w1 cfg cfg.BearerToken = (none, w2)) ∧
    (∀ p c, Call.modifyConfig p c ∈ (RunLogout env w o).calls →
      ∃ cfg start, o.Config = some cfg ∧ o.StartingKubeConfig = some start ∧
        c = scrubConfig cfg.BearerToken start ∧ (RunLogout env w o).store = some c) ∧
    (∀ s, Call.write s ∈ (RunLogout env w o).calls →
      (RunLogout env w o).result = .nil ∧
        ∃ p c, Call.modifyConfig p c ∈ (RunLogout env w o).calls) ∧
    (∀ cfg err w1, o.Config = some cfg → env.New cfg = none →
      env.whoAmI w cfg = (.error err, w1) →
      RunLogout env w o = ⟨.error err, w1, o.StartingKubeConfig, [.whoAmI cfg]⟩) := by
  rcases RunLogout_cases env w o with
    ⟨hc, h⟩ | ⟨cfg, e, hc, hn, h⟩ | ⟨cfg, e, w1, hc, hn, hw, h⟩ |
    ⟨cfg, u, w1, e, w2, hc, hn, hw, hd, h⟩ | ⟨cfg, u, w1, w2, hc, hn, hw, hd, hs, h⟩ |
    ⟨cfg, u, w1, w2, start, e, w3, hc, hn, hw, hd, hs, hm, h⟩ |
    ⟨cfg, u, w1, w2, start, w3, hc, hn, hw, hd, hs, hm, h⟩
  · rw [h]
    refine ⟨by simp, by simp, by simp, by simp, by simp, ?_⟩
    intro cfg err w1 hc2
    rw [hc] at hc2
    exact absurd hc2 (by simp)
  · rw [h]
    refine ⟨by simp, by simp, by simp, by simp, by simp, ?_⟩
    intro cfg2 err w1 hc2 hn2
    rw [hc] at hc2
    obtain rfl := Option.some.inj hc2
    rw [hn] at hn2
    exact absurd hn2 (by simp)
  · rw [h]
    refine ⟨⟨[Phase.revoke, Phase.persist, Phase.confirm], rfl⟩, by simp, by simp, by simp,
      by simp, ?_⟩
    intro cfg2 err w2 hc2 _ hw2
    rw [hc] at hc2
    obtain rfl := Option.some.inj hc2
    rw [hw] at hw2
    injection hw2 with h1 h2
    injection h1 with h3
    subst h2 h3
    rfl
  · rw [h]
    refine ⟨⟨[Phase.persist, Phase.confirm], rfl⟩, ?_, by simp, by simp, by simp, ?_⟩
    · intro c t hmem
      have hct : c = cfg ∧ t = cfg.BearerToken := by simpa using hmem
      obtain ⟨rfl, rfl⟩ := hct
      exact ⟨u, w1, hc, rfl, hw⟩
    · intro cfg2 err w3 hc2 _ hw2
      rw [hc] at hc2
      obtain rfl := Option.some.inj hc2
      rw [hw] at hw2
      injection hw2 with h1 _
      exact absurd h1 (by simp)
  · rw [h]
    refine ⟨⟨[Phase.persist, Phase.confirm], rfl⟩, ?_, ?_, by simp, by simp, ?_⟩
    · intro c t hmem
      have hct : c = cfg ∧ t = cfg.BearerToken := by simpa using hmem
      obtain ⟨rfl, rfl⟩ := hct
      exact ⟨u, w1, hc, rfl, hw⟩
    · intro _
      exact ⟨cfg, u, w1, w2, hc, hw, hd⟩
    · intro cfg2 err w3 hc2 _ hw2
      rw [hc] at hc2
      obtain rfl := Option.some.inj hc2
      rw [hw] at hw2
      injection hw2 with h1 _
      exact absurd h1 (by simp)
  · rw [h]
    refine ⟨⟨[Phase.confirm], rfl⟩, ?_, ?_, ?_, by simp, ?_⟩
    · intro c t hmem
      have hct : c = cfg ∧ t = cfg.BearerToken := by simpa using hmem
      obtain ⟨rfl, rfl⟩ := hct
      exact ⟨u, w1, hc, rfl, hw⟩
    · intro _
      exact ⟨cfg, u, w1, w2, hc, hw, hd⟩
    · intro p c hmem
      have hpc : p = o.PathOptions ∧ c = scrubConfig cfg.BearerToken start := by
        simpa using hmem
      exact ⟨cfg, start, hc, hs, hpc.2, by rw [hpc.2]⟩
    · intro cfg2 err w4 hc2 _ hw2
      rw [hc] at hc2
      obtain rfl := Option.some.inj hc2
      rw [hw] at hw2
      injection hw2 with h1 _
      exact absurd h1 (by simp)
  · rw [h]
    refine ⟨⟨[], rfl⟩, ?_, ?_, ?_, ?_, ?_⟩
    · intro c t hmem
      have hct : c = cfg ∧ t = cfg.BearerToken := by simpa using hmem
      obtain ⟨rfl, rfl⟩ := hct
      exact ⟨u, w1, hc, rfl, hw⟩
    · intro _
      exact ⟨cfg, u, w1, w2, hc, hw, hd⟩
    · intro p c hmem
      have hpc : p = o.PathOptions ∧ c = scrubConfig cfg.BearerToken start := by
        simpa using hmem
      exact ⟨cfg, start, hc, hs, hpc.2, by rw [hpc.2]⟩
    · intro s _
      exact ⟨rfl, o.PathOptions, scrubConfig cfg.BearerToken start, by simp⟩
    · intro cfg2 err w4 hc2 _ hw2
      rw [hc] at hc2
      obtain rfl := Option.some.inj hc2
      rw [hw] at hw2
      injection hw2 with h1 _
      exact absurd h1 (by simp)

/-- Witness of C9: the token was already deleted, so the server refuses `whoAmI`. -/
theorem RunLogout_phase_order_witness :
    RunLogout (simEnv (fun _ => "tok-1") "alice@server" none none none none)
        ⟨oneStanza, ["tok-1"]⟩ ⟨some oneStanza, some tok1Config, some "cfg"⟩ =
      ⟨.error "Unauthorized", ⟨oneStanza, ["tok-1"]⟩, some oneStanza, [.whoAmI tok1Config]⟩ :=
  (RunLogout_phase_order (simEnv (fun _ => "tok-1") "alice@server" none none none none)
    ⟨oneStanza, ["tok-1"]⟩ ⟨some oneStanza, some tok1Config, some "cfg"⟩).2.2.2.2.2
    tok1Config "Unauthorized" ⟨oneStanza, ["tok-1"]⟩ rfl rfl rfl

/-- C6, as the code has it: when the delete succeeds and `ModifyConfig` fails,
`RunLogout` returns the error of `ModifyConfig` as it is and writes nothing; a
run in which the delete fails returns the error of `Delete` as it is, so the two
results differ exactly when the two collaborators report different errors. -/
theorem RunLogout_persist_failure {W : Type} (env : Env W) (w : W) (o : LogoutOptions)
    (cfg : Config) (start : KubeConfig) (userInfo : User) (w1 w2 w3 : W) (err : GoError)
    (hc : o.Config = some cfg) (hs : o.StartingKubeConfig = some start)
    (hn : env.New cfg = none)
    (hw : env.whoAmI w cfg = (.ok userInfo, w1))
    (hd : env.Delete w1 cfg cfg.BearerToken = (none, w2))
    (hm : env.ModifyConfig w2 o.PathOptions (scrubConfig cfg.BearerToken start) =
      (some err, w3)) :
    (RunLogout env w o).result = .error err ∧
    written (RunLogout env w o).calls = [] ∧
    (∀ s, Call.write s ∉ (RunLogout env w o).calls) ∧
    (RunLogout env w o).world = w3 ∧
    (∀ (env2 : Env W) (wa : W) (o2 : LogoutOptions) (cfg2 : Config) (u2 : User)
        (wb wc : W) (err2 : GoError),
      o2.Config = some cfg2 → env2.New cfg2 = none →
      env2.whoAmI wa cfg2 = (.ok u2, wb) →
      env2.Delete wb cfg2 cfg2.BearerToken = (some err2, wc) →
      ((RunLogout env2 wa o2).result = (RunLogout env w o).result ↔ err2 = err)) := by
  rw [RunLogout_modify_error env w o cfg start userInfo w1 w2 w3 err hc hs hn hw hd hm]
  refine ⟨rfl, by simp [written], by simp, rfl, ?_⟩
  intro env2 wa o2 cfg2 u2 wb wc err2 hc2 hn2 hw2 hd2
  rw [RunLogout_delete_error env2 wa o2 cfg2 u2 wb wc err2 hc2 hn2 hw2 hd2]
  simp

/-- Witness of C6, as the code has it: the file cannot be written. -/
theorem RunLogout_persist_failure_witness :
    (RunLogout (simEnv (fun _ => "tok-1") "alice@server" none none none (some "disk full"))
        ⟨oneStanza, []⟩ ⟨some oneStanza, some tok1Config, some "cfg"⟩).result
      = .error "disk full" ∧
    written (RunLogout (simEnv (fun _ => "tok-1") "alice@server" none none none (some "disk full"))
        ⟨oneStanza, []⟩ ⟨some oneStanza, some tok1Config, some "cfg"⟩).calls = [] :=
  have h := RunLogout_persist_failure
    (simEnv (fun _ => "tok-1") "alice@server" none none none (some "disk full"))
    ⟨oneStanza, []⟩ ⟨some oneStanza, some tok1Config, some "cfg"⟩ tok1Config oneStanza
    ⟨"alice@server"⟩ ⟨oneStanza, []⟩ ⟨oneStanza, ["tok-1"]⟩ ⟨oneStanza, ["tok-1"]⟩
    "disk full" rfl rfl rfl rfl rfl rfl
  ⟨h.1, h.2.1⟩

/-- C6 fails as stated: a run in which the delete succeeds and `ModifyConfig`
fails with the error "i/o timeout" returns the same value as a run in which the
delete itself fails with "i/o timeout". -/
theorem persist_error_not_told_apart_from_remote_error :
    (RunLogout (simEnv (fun _ => "tok-1") "alice@server" none none none (some "i/o timeout"))
        ⟨oneStanza, []⟩ ⟨some oneStanza, some tok1Config, some "cfg"⟩).calls.map Call.phase
      = [Phase.identify, Phase.revoke, Phase.persist] ∧
    (RunLogout (simEnv (fun _ => "tok-1") "alice@server" none none (some "i/o timeout") none)
        ⟨oneStanza, []⟩ ⟨some oneStanza, some tok1Config, some "cfg"⟩).calls.map Call.phase
      = [Phase.identify, Phase.revoke] ∧
    (RunLogout (simEnv (fun _ => "tok-1") "alice@server" none none none (some "i/o timeout"))
        ⟨oneStanza, []⟩ ⟨some oneStanza, some tok1Config, some "cfg"⟩).result =
    (RunLogout (simEnv (fun _ => "tok-1") "alice@server" none none (some "i/o timeout") none)
        ⟨oneStanza, []⟩ ⟨some oneStanza, some tok1Config, some "cfg"⟩).result := by
  decide

/-! ## The claims about the command -/

/-- A command that returns `nil` went through `Complete`, `Validate` and `RunLogout`. -/
theorem logoutCmd_nil_inv {W : Type} (env : Env W) (w : W) (args : List String)
    (h : (logoutCmd env w args).result = .nil) :
    ∃ cfg, (env.RawConfig w).2 = none ∧ env.ClientConfig w = .ok cfg ∧
      Validate ⟨some (env.RawConfig w).1, some cfg, some env.NewPathOptions⟩ args = .nil ∧
      logoutCmd env w args =
        RunLogout env w ⟨some (env.RawConfig w).1, some cfg, some env.NewPathOptions⟩ := by
  cases hC : (Complete env w ⟨none, none, none⟩).2 with
  | some e =>
    rw [logoutCmd_complete_error env w args e hC] at h
    simp at h
  | none =>
    obtain ⟨cfg, hr, hcc⟩ := Complete_nil_inv env w _ hC
    by_cases hv : Validate ⟨some (env.RawConfig w).1, some cfg, some env.NewPathOptions⟩ args
        = .nil
    · exact ⟨cfg, hr, hcc, hv, logoutCmd_runs env w args cfg hr hcc hv⟩
    · rw [logoutCmd_validate_stops env w args cfg hr hcc hv] at h
      exact absurd h hv

/-- C4, as the code has it: with a positional argument the command fails and
has no effect: no call to the server, no write of the kubeconfig, no output, the
world and the store as they were.  The error is the argument error when
`Complete` succeeded, and the error of `Complete` when it did not. -/
theorem logoutCmd_arguments_rejected {W : Type} (env : Env W) (w : W) (args : List String)
    (h : args ≠ []) :
    (∃ e, (logoutCmd env w args).result = .error e) ∧
    ((Complete env w ⟨none, none, none⟩).2 = none →
      (logoutCmd env w args).result = .error "No arguments are allowed") ∧
    (∀ e, (Complete env w ⟨none, none, none⟩).2 = some e →
      (logoutCmd env w args).result = .error e) ∧
    (logoutCmd env w args).calls = [] ∧
    (logoutCmd env w args).world = w ∧
    (logoutCmd env w args).store = some (env.RawConfig w).1 := by
  cases hC : (Complete env w ⟨none, none, none⟩).2 with
  | some e =>
    rw [logoutCmd_complete_error env w args e hC]
    simp
  | none =>
    obtain ⟨cfg, hr, hcc⟩ := Complete_nil_inv env w _ hC
    have hv := Validate_args ⟨some (env.RawConfig w).1, some cfg, some env.NewPathOptions⟩
      args h
    rw [logoutCmd_validate_stops env w args cfg hr hcc (by rw [hv]; simp), hv]
    simp

/-- Witness of C4, as the code has it: one argument, a token and a loadable config. -/
theorem logoutCmd_arguments_rejected_witness :
    (logoutCmd (simEnv (tokenOfStanza "alice") "alice@server" none none none none)
        ⟨oneStanza, []⟩ ["now"]).result = .error "No arguments are allowed" ∧
    (logoutCmd (simEnv (tokenOfStanza "alice") "alice@server" none none none none)
        ⟨oneStanza, []⟩ ["now"]).calls = [] ∧
    (logoutCmd (simEnv (tokenOfStanza "alice") "alice@server" none none none none)
        ⟨oneStanza, []⟩ ["now"]).world = ⟨oneStanza, []⟩ :=
  have h := logoutCmd_arguments_rejected
    (simEnv (tokenOfStanza "alice") "alice@server" none none none none)
    ⟨oneStanza, []⟩ ["now"] (by decide)
  ⟨h.2.1 rfl, h.2.2.2.1, h.2.2.2.2.1⟩

/-- C4 fails as stated: with a positional argument and a client configuration
that cannot be loaded, the command fails with the error of `Complete`, not with
the argument error. -/
theorem arguments_with_unloadable_config :
    (logoutCmd (simEnv (tokenOfStanza "alice") "alice@server" none
        (some "invalid configuration") none none) ⟨oneStanza, []⟩ ["now"]).result
      = .error "invalid configuration" ∧
    (logoutCmd (simEnv (tokenOfStanza "alice") "alice@server" none
        (some "invalid configuration") none none) ⟨oneStanza, []⟩ ["now"]).result
      ≠ .error "No arguments are allowed" := by
  decide

/-- C5, as the code has it: without positional arguments and with an empty
bearer token in the loaded client configuration, the command fails with
"You must have a token in order to logout." and has no effect: no call to the
server, no write of the kubeconfig, no output, the world and the store as they
were. -/
theorem logoutCmd_empty_token {W : Type} (env : Env W) (w : W) (cfg : Config)
    (hr : (env.RawConfig w).2 = none) (hcc : env.ClientConfig w = .ok cfg)
    (ht : cfg.BearerToken = "") :
    (logoutCmd env w []).result = .error "You must have a token in order to logout." ∧
    (logoutCmd env w []).calls = [] ∧
    (logoutCmd env w []).world = w ∧
    (logoutCmd env w []).store = some (env.RawConfig w).1 := by
  have hv := Validate_no_args cfg (env.RawConfig w).1 (some env.NewPathOptions)
  rw [if_pos ht] at hv
  rw [logoutCmd_validate_stops env w [] cfg hr hcc (by rw [hv]; simp), hv]
  simp

/-- Witness of C5, as the code has it: the stanza alice has no token. -/
theorem logoutCmd_empty_token_witness :
    (logoutCmd (simEnv (fun _ => "") "alice@server" none none none none)
        ⟨oneStanza, []⟩ []).result = .error "You must have a token in order to logout." ∧
    (logoutCmd (simEnv (fun _ => "") "alice@server" none none none none)
        ⟨oneStanza, []⟩ []).calls = [] ∧
    (logoutCmd (simEnv (fun _ => "") "alice@server" none none none none)
        ⟨oneStanza, []⟩ []).world = ⟨oneStanza, []⟩ :=
  have h := logoutCmd_empty_token (simEnv (fun _ => "") "alice@server" none none none none)
    ⟨oneStanza, []⟩ noTokenConfig rfl rfl rfl
  ⟨h.1, h.2.1, h.2.2.1⟩

/-- C5 fails as stated: with an empty bearer token and a positional argument the
command fails with the argument error, not with the token error. -/
theorem empty_token_with_argument :
    (Complete (simEnv (fun _ => "") "alice@server" none none none none)
        ⟨oneStanza, []⟩ ⟨none, none, none⟩).1.Config = some noTokenConfig ∧
    (logoutCmd (simEnv (fun _ => "") "alice@server" none none none none)
        ⟨oneStanza, []⟩ ["now"]).result = .error "No arguments are allowed" ∧
    (logoutCmd (simEnv (fun _ => "") "alice@server" none none none none)
        ⟨oneStanza, []⟩ ["now"]).result
      ≠ .error "You must have a token in order to logout." := by
  decide

/-- C10: `Complete` stores the kubeconfig it loaded on every path, also when
the load returns an error, so the receiver never keeps a nil `StartingKubeConfig`;
`Validate` on the receiver that `Complete` leaves therefore never returns
"Must have a config file already created", and an error of `Complete` is what
the command reports. -/
theorem Complete_always_sets_StartingKubeConfig {W : Type} (env : Env W) (w : W)
    (o : LogoutOptions) (args : List String) :
    (Complete env w o).1.StartingKubeConfig = some (env.RawConfig w).1 ∧
    Validate (Complete env w o).1 args ≠ .error "Must have a config file already created" ∧
    (∀ e, (Complete env w ⟨none, none, none⟩).2 = some e →
      (logoutCmd env w args).result = .error e) := by
  refine ⟨Complete_store env w o, ?_, ?_⟩
  · have hst := Complete_store env w o
    unfold Validate
    rw [hst]
    by_cases ha : args.length > 0
    · simp only [ha, if_true]
      decide
    · simp only [ha, if_false]
      cases (Complete env w o).1.Config with
      | none => simp
      | some cfg =>
        by_cases hl : cfg.BearerToken.length = 0
        · simp only [hl, if_true]
          decide
        · simp [hl]
  · intro e he
    rw [logoutCmd_complete_error env w args e he]

/-- Witness of C10: the kubeconfig cannot be loaded. -/
theorem Complete_always_sets_StartingKubeConfig_witness :
    (Complete (simEnv (tokenOfStanza "alice") "alice@server" (some "no such file") none none none)
        ⟨oneStanza, []⟩ ⟨none, none, none⟩).1.StartingKubeConfig = some oneStanza ∧
    (logoutCmd (simEnv (tokenOfStanza "alice") "alice@server" (some "no such file") none none none)
        ⟨oneStanza, []⟩ []).result = .error "no such file" :=
  have h := Complete_always_sets_StartingKubeConfig
    (simEnv (tokenOfStanza "alice") "alice@server" (some "no such file") none none none)
    ⟨oneStanza, []⟩ ⟨none, none, none⟩ []
  ⟨h.1, h.2.2 "no such file" rfl⟩

/-- C8, as the code has it: take collaborators for which a successful
`ModifyConfig` leaves a file that `RawConfig` loads back, and for which the bearer
token of the client configuration is the `Token` of the stanza `user` of the
file.  Then a second command run in the world left by a successful first one, if
its client configuration loads, fails with
"You must have a token in order to logout." and sends nothing to the server. -/
theorem second_logout_without_token {W : Type} (env : Env W) (w : W) (user : String)
    (cfg2 : Config)
    (hp : ∀ w0 p c w3, env.ModifyConfig w0 p c = (none, w3) → env.RawConfig w3 = (c, none))
    (ht : ∀ w0 c, env.ClientConfig w0 = .ok c →
      c.BearerToken =
        match mapGet (env.RawConfig w0).1.AuthInfos user with
        | some a => a.Token
        | none => "")
    (h1 : (logoutCmd env w []).result = .nil)
    (h2 : env.ClientConfig (logoutCmd env w []).world = .ok cfg2) :
    (logoutCmd env (logoutCmd env w []).world []).result
      = .error "You must have a token in order to logout." ∧
    (logoutCmd env (logoutCmd env w []).world []).calls = [] ∧
    (logoutCmd env (logoutCmd env w []).world []).world = (logoutCmd env w []).world := by
  obtain ⟨cfg, hr, hcc, hv, hrun⟩ := logoutCmd_nil_inv env w [] h1
  rw [hrun] at h1
  obtain ⟨cfg0, start, userInfo, w1, w2, w3, hc0, hs0, -, -, -, hm, hrun2⟩ :=
    RunLogout_nil_inv env w _ h1
  have e1 : cfg0 = cfg := (Option.some.inj hc0).symm
  have e2 : start = (env.RawConfig w).1 := (Option.some.inj hs0).symm
  subst e1
  have hworld : (logoutCmd env w []).world = w3 := by rw [hrun, hrun2]
  rw [hworld] at h2 ⊢
  have hraw := hp _ _ _ _ hm
  have htok : cfg0.BearerToken ≠ "" := by
    intro hempty
    rw [Validate_no_args, if_pos hempty] at hv
    simp at hv
  have hfirst := ht w cfg0 hcc
  have hsecond := ht w3 cfg2 h2
  rw [hraw] at hsecond
  simp only at hsecond
  rw [mapGet_scrubConfig, e2] at hsecond
  have hempty2 : cfg2.BearerToken = "" := by
    cases hg : mapGet (env.RawConfig w).1.AuthInfos user with
    | none => rw [hg] at hsecond; exact hsecond
    | some a =>
      rw [hg] at hfirst hsecond
      simp only [Option.map_some'] at hsecond
      rw [hsecond]
      simp only at hfirst
      unfold clearToken
      simp [hfirst]
  have hr3 : (env.RawConfig w3).2 = none := by rw [hraw]
  have hv3 := Validate_no_args cfg2 (env.RawConfig w3).1 (some env.NewPathOptions)
  rw [if_pos hempty2] at hv3
  rw [logoutCmd_validate_stops env w3 [] cfg2 hr3 h2 (by rw [hv3]; simp), hv3]
  simp

/-- Witness of C8, as the code has it: the token is read from the stanza alice. -/
theorem second_logout_without_token_witness :
    (logoutCmd (simEnv (tokenOfStanza "alice") "alice@server" none none none none)
        ⟨threeStanzas, []⟩ []).result = .nil ∧
    (logoutCmd (simEnv (tokenOfStanza "alice") "alice@server" none none none none)
        (logoutCmd (simEnv (tokenOfStanza "alice") "alice@server" none none none none)
          ⟨threeStanzas, []⟩ []).world []).result
      = .error "You must have a token in order to logout." ∧
    (logoutCmd (simEnv (tokenOfStanza "alice") "alice@server" none none none none)
        (logoutCmd (simEnv (tokenOfStanza "alice") "alice@server" none none none none)
          ⟨threeStanzas, []⟩ []).world []).calls = [] :=
  have h := second_logout_without_token
    (simEnv (tokenOfStanza "alice") "alice@server" none none none none)
    ⟨threeStanzas, []⟩ "alice" noTokenConfig
    (by
      intro w0 p c w3 hm
      have e : w3 = { w0 with disk := c } := by
        simp only [simEnv, Prod.mk.injEq, true_and] at hm
        exact hm.symm
      subst e
      rfl)
    (by
      intro w0 c hc
      simp only [simEnv, Except.ok.injEq] at hc
      subst hc
      rfl)
    (by decide) rfl
  ⟨by decide, h.1, h.2.1⟩

/-- C8 fails as stated: when the bearer token of the client configuration does
not come from a stanza of the file (here it is always tok-1), a second command
after a successful one passes `Validate`, calls the server and fails with the
error of the server. -/
theorem second_logout_with_fixed_token :
    (logoutCmd (simEnv (fun _ => "tok-1") "alice@server" none none none none)
        ⟨threeStanzas, []⟩ []).result = .nil ∧
    (logoutCmd (simEnv (fun _ => "tok-1") "alice@server" none none none none)
        (logoutCmd (simEnv (fun _ => "tok-1") "alice@server" none none none none)
          ⟨threeStanzas, []⟩ []).world []).result = .error "Unauthorized" ∧
    (logoutCmd (simEnv (fun _ => "tok-1") "alice@server" none none none none)
        (logoutCmd (simEnv (fun _ => "tok-1") "alice@server" none none none none)
          ⟨threeStanzas, []⟩ []).world []).result
      ≠ .error "You must have a token in order to logout." ∧
    (logoutCmd (simEnv (fun _ => "tok-1") "alice@server" none none none none)
        (logoutCmd (simEnv (fun _ => "tok-1") "alice@server" none none none none)
          ⟨threeStanzas, []⟩ []).world []).calls = [.whoAmI tok1Config] := by
  decide

end Logout
